import Mathlib

/-!
# Banking-ledger worker pipeline: a shallow embedding

This file embeds the core message-driven ledger pipeline of the
banking-ledger repository: the transaction processor
(`TransactionProcessor.transact` / `ProcessTransaction`), the account
processor's account-number generation and `CreateAccount`, and the
per-message worker dispatch loop.  Monetary amounts (Go `float64`
decimals) are modelled as rationals; the Postgres `accounts` table is
modelled as a map from the primary key `account_number` to the row's
remaining columns; infrastructure failures (begin / locked read /
update / commit / audit-index calls) are modelled by a record of
booleans saying which external calls succeed.
-/

namespace BankingLedger

/-- One row of the `accounts` table (schema.sql), minus the primary key
`account_number` which serves as the map key, and minus the timestamp
columns which the core logic never reads. -/
structure AccountRow where
  account_holder_name : String
  available_balance : ℚ
  branch_code : String
  status : String
deriving DecidableEq, Repr

/-- The `accounts` table, keyed by the primary key `account_number`. -/
def DB : Type := String → Option AccountRow

/-- Embeds `processor.TransactionData`: the decoded transaction message plus the
processor's scratch fields (`AvailableBalance`, `BranchCode`) that
`transact` fills in as it runs. -/
structure TransactionData where
  accountNumber : String
  amount : ℚ
  availableBalance : ℚ
  type : String
  transactionId : String
  branchCode : String
deriving DecidableEq, Repr

/-- Embeds `processor.AccountData`: the decoded account-creation message. -/
structure AccountData where
  accountNumber : String
  accountHolderName : String
  initialDeposit : ℚ
  branchCode : String
  referenceID : String
deriving DecidableEq, Repr

/-- Embeds `processor.TransactionDocument`: the audit record indexed into the
date-partitioned Elasticsearch collection (timestamp omitted). -/
structure TransactionDocument where
  transaction_id : String
  account_number : String
  amount : ℚ
  type : String
  status : String
  branch_code : String
  balance_after_transaction : ℚ
deriving DecidableEq, Repr

/-- Which external calls of one `TransactionProcessor` invocation
succeed: `tx.Begin`, the locked `SELECT` round-trip, `tx.Exec` of the
`UPDATE`, `tx.Commit`, and the audit-index `EsConn.Index` call. -/
structure Env where
  beginOk : Bool
  readOk : Bool
  updateOk : Bool
  commitOk : Bool
  auditOk : Bool
deriving DecidableEq, Repr

/-- The locked read
`SELECT available_balance, branch_code FROM accounts
 WHERE account_number = $1 AND status='ACTIVE' FOR UPDATE`:
returns the row iff it exists and is ACTIVE (no row makes `Scan` fail). -/
def lookupActive (db : DB) (acct : String) : Option AccountRow :=
  match db acct with
  | some r => if r.status = "ACTIVE" then some r else none
  | none => none

/-- The `switch p.Data.Type` validation block of `transact`: returns the
new balance, or the error `transact` returns on that branch. -/
def validate (ty : String) (amount currentBalance : ℚ) : Except String ℚ :=
  if ty = "DEPOSIT" then
    if amount ≤ 0 then Except.error "deposit amount must be positive"
    else Except.ok (currentBalance + amount)
  else if ty = "WITHDRAWAL" then
    if amount ≤ 0 then Except.error "withdrawal amount must be positive"
    else if currentBalance < amount then Except.error "insufficient funds"
    else Except.ok (currentBalance - amount)
  else Except.error ("invalid transaction type: " ++ ty)

/-- Embeds `UPDATE accounts SET available_balance = $1 WHERE account_number = $2`
(account_number is the primary key, so one row matches). -/
def updateBalance (db : DB) (acct : String) (newBalance : ℚ) : DB :=
  fun k =>
    if k = acct then (db k).map (fun r => { r with available_balance := newBalance })
    else db k

/-- Embeds `TransactionProcessor.transact`: begin, locked read, validate,
update, commit, with the deferred `tx.Rollback` discarding the update
on any error path.  Returns the Go error result, the table after the
transaction ends, and `p.Data` with its scratch fields as mutated. -/
def transact (env : Env) (db : DB) (d : TransactionData) :
    Except String Unit × DB × TransactionData :=
  if env.beginOk then
    match (if env.readOk then lookupActive db d.accountNumber else none) with
    | none => (Except.error "failed to get account balance", db, d)
    | some row =>
      let d1 := { d with branchCode := row.branch_code,
                         availableBalance := row.available_balance }
      match validate d1.type d1.amount row.available_balance with
      | Except.error e => (Except.error e, db, d1)
      | Except.ok newBalance =>
        let d2 := { d1 with availableBalance := newBalance }
        if env.updateOk then
          if env.commitOk then
            (Except.ok (), updateBalance db d2.accountNumber newBalance, d2)
          else (Except.error "failed to commit transaction", db, d2)
        else (Except.error "failed to update account balance", db, d2)
  else (Except.error "failed to begin transaction", db, d)

/-- The observable outcome of one `ProcessTransaction` call: the value
returned to the caller, the table afterwards, the audit document built,
the attempted audit-index writes, and whether the index call succeeded. -/
structure ProcessResult where
  ret : Except String Unit
  db : DB
  doc : TransactionDocument
  writes : List TransactionDocument
  writeOk : Bool

/-- The audit document `ProcessTransaction` builds from the outcome of
`transact`: status COMPLETED or FAILED by the error, every other field
taken from the possibly mutated `p.Data`. -/
def auditDocOf (t : Except String Unit × DB × TransactionData) : TransactionDocument :=
  { transaction_id := t.2.2.transactionId
    account_number := t.2.2.accountNumber
    amount := t.2.2.amount
    type := t.2.2.type
    status := match t.1 with
      | Except.ok _ => "COMPLETED"
      | Except.error _ => "FAILED"
    branch_code := t.2.2.branchCode
    balance_after_transaction := t.2.2.availableBalance }

/-- Embeds `TransactionProcessor.ProcessTransaction`: runs `transact`, sets the
status to COMPLETED or FAILED, builds the audit document from the
mutated `p.Data`, attempts exactly one audit-index write (a failure is
only logged), and ends with `return nil`. -/
def ProcessTransaction (env : Env) (db : DB) (d : TransactionData) : ProcessResult :=
  let t := transact env db d
  let doc := auditDocOf t
  { ret := Except.ok ()
    db := t.2.1
    doc := doc
    writes := [doc]
    writeOk := env.auditOk }

/-- Go's `fmt.Sprintf("%07d", n)` on the generator's argument, which is
always reduced modulo 10^7 first: the seven decimal digits of `n`,
most significant first, zero-padded. -/
def format07d (n : Nat) : String :=
  ⟨[Nat.digitChar (n / 1000000 % 10), Nat.digitChar (n / 100000 % 10),
    Nat.digitChar (n / 10000 % 10), Nat.digitChar (n / 1000 % 10),
    Nat.digitChar (n / 100 % 10), Nat.digitChar (n / 10 % 10),
    Nat.digitChar (n % 10)]⟩

/-- The account-number generator inside `CreateAccountProcessor.CreateAccount`:
`randomNumber := 1000000 + time.Now().UnixNano()%9000000` followed by
`fmt.Sprintf("%s%07d", branchCode, randomNumber%10000000)`. -/
def generateAccountNumber (branchCode : String) (nowUnixNano : Nat) : String :=
  let randomNumber := 1000000 + nowUnixNano % 9000000
  branchCode ++ format07d (randomNumber % 10000000)

/-- Which external calls of one `CreateAccount` invocation succeed
(`PgxConn.Exec` of the INSERT and the audit-index call), plus the clock
read used for the account number. -/
structure CreateEnv where
  execOk : Bool
  auditOk : Bool
  nowUnixNano : Nat
deriving DecidableEq, Repr

/-- Embeds `CreateAccountProcessor.CreateAccount`: reject a negative initial
deposit, generate the account number, INSERT the ACTIVE row, and on
success index one COMPLETED audit document (index failure only logged). -/
def CreateAccount (env : CreateEnv) (db : DB) (d : AccountData) :
    Except String Unit × DB × List TransactionDocument :=
  if d.initialDeposit < 0 then
    (Except.error "initial Deposit cannot be negative", db, [])
  else
    let acctNum := generateAccountNumber d.branchCode env.nowUnixNano
    if env.execOk then
      let row : AccountRow :=
        { account_holder_name := d.accountHolderName
          available_balance := d.initialDeposit
          branch_code := d.branchCode
          status := "ACTIVE" }
      let db1 : DB := fun k => if k = acctNum then some row else db k
      let doc : TransactionDocument :=
        { transaction_id := d.referenceID
          account_number := acctNum
          amount := d.initialDeposit
          type := "DEPOSIT"
          status := "COMPLETED"
          branch_code := d.branchCode
          balance_after_transaction := d.initialDeposit }
      (Except.ok (), db1, [doc])
    else (Except.error "failed to create account", db, [])

/-- One consumed delivery, as the worker loop sees it after running
`json.Unmarshal`: the queue kind determines the payload type, and
`none` is a decode failure. -/
inductive QueueMsg where
  | account (dec : Option AccountData)
  | transaction (dec : Option TransactionData)
deriving Repr

/-- What one iteration of a worker's consume loop does with a message:
whether `d.Ack` was called, whether a processor was invoked, the
processor error that was logged (if any), the table afterwards, and the
attempted audit writes. -/
structure WorkerOutcome where
  acked : Bool
  invoked : Bool
  loggedErr : Option String
  db : DB
  writes : List TransactionDocument

/-- The error a processor returned, for the worker's log line. -/
def errOf : Except String Unit → Option String
  | Except.ok _ => none
  | Except.error e => some e

/-- One iteration of the worker loop in workers/main.go: decode the
payload for the queue's kind; on decode failure ack and drop; on decode
success invoke the matching processor synchronously, log its error if
any, and ack unconditionally. -/
def workerStep (env : Env) (cenv : CreateEnv) (db : DB) (m : QueueMsg) : WorkerOutcome :=
  match m with
  | QueueMsg.account none =>
      { acked := true, invoked := false, loggedErr := none, db := db, writes := [] }
  | QueueMsg.account (some d) =>
      let r := CreateAccount cenv db d
      { acked := true, invoked := true, loggedErr := errOf r.1, db := r.2.1, writes := r.2.2 }
  | QueueMsg.transaction none =>
      { acked := true, invoked := false, loggedErr := none, db := db, writes := [] }
  | QueueMsg.transaction (some d) =>
      let p := ProcessTransaction env db d
      { acked := true, invoked := true, loggedErr := errOf p.ret, db := p.db, writes := p.writes }

/-- Run a sequence of `ProcessTransaction` invocations (each with its
own environment of external-call outcomes), returning the final table
and the per-invocation trace of (message, was the ledger mutation
committed). -/
def runTrace : DB → List (Env × TransactionData) → DB × List (TransactionData × Bool)
  | db, [] => (db, [])
  | db, (e, d) :: rest =>
    let p := ProcessTransaction e db d
    let r := runTrace p.db rest
    (r.1, (d, p.doc.status = "COMPLETED") :: r.2)

/-- Sum of the amounts of the committed transactions of one type against
one account, over a trace. -/
def sumAccepted (acct ty : String) : List (TransactionData × Bool) → ℚ
  | [] => 0
  | (d, ok) :: rest =>
    (if ok = true ∧ d.accountNumber = acct ∧ d.type = ty then d.amount else 0)
      + sumAccepted acct ty rest

/-- The committed balance of one account, when the account exists. -/
def balanceOf (db : DB) (acct : String) : Option ℚ :=
  (db acct).map (fun r => r.available_balance)

deriving instance DecidableEq for Except

example : validate "DEPOSIT" 5 10 = Except.ok 15 := by simp [validate]; norm_num
example : validate "WITHDRAWAL" 300 1000 = Except.ok 700 := by simp [validate]; norm_num
example : validate "WITHDRAWAL" 500 100 = Except.error "insufficient funds" := by simp [validate]; norm_num
example : generateAccountNumber "BR1" 0 = "BR11000000" := by decide

/-! ## Characterization lemmas for `validate` and `transact` -/

/-- Validation succeeds exactly on a positive-amount DEPOSIT or an
affordable positive-amount WITHDRAWAL, with the expected new balance. -/
theorem validate_ok_iff {ty : String} {a cur nb : ℚ} :
    validate ty a cur = Except.ok nb ↔
      ((ty = "DEPOSIT" ∧ 0 < a ∧ nb = cur + a) ∨
       (ty = "WITHDRAWAL" ∧ 0 < a ∧ a ≤ cur ∧ nb = cur - a)) := by
  unfold validate
  split_ifs with h1 h2 h3 h4 h5 <;> simp_all <;> constructor <;> intro h <;> linarith

/-- If `tx.Begin` fails, `transact` aborts with the table and message
untouched. -/
theorem transact_begin_fail {env : Env} (db : DB) (d : TransactionData)
    (h : env.beginOk = false) :
    transact env db d = (Except.error "failed to begin transaction", db, d) := by
  unfold transact
  simp [h]

/-- If the locked read round-trip fails, or no ACTIVE row matches, the
`Scan` error aborts `transact` with the table and message untouched. -/
theorem transact_read_fail {env : Env} {db : DB} {d : TransactionData}
    (hb : env.beginOk = true)
    (h : (if env.readOk then lookupActive db d.accountNumber else none) = none) :
    transact env db d = (Except.error "failed to get account balance", db, d) := by
  unfold transact
  simp [hb, h]

/-- If validation rejects the request, `transact` rolls back: the table
is untouched and `p.Data` carries the balance and branch just read. -/
theorem transact_validate_fail {env : Env} {db : DB} {d : TransactionData}
    {row : AccountRow} {e : String}
    (hb : env.beginOk = true) (hr : env.readOk = true)
    (hl : lookupActive db d.accountNumber = some row)
    (hv : validate d.type d.amount row.available_balance = Except.error e) :
    transact env db d =
      (Except.error e, db,
       { d with branchCode := row.branch_code,
                availableBalance := row.available_balance }) := by
  unfold transact
  simp [hb, hr, hl, hv]

/-- If validation passes but the `UPDATE` fails, `transact` rolls back;
`p.Data.AvailableBalance` already holds the computed new balance. -/
theorem transact_update_fail {env : Env} {db : DB} {d : TransactionData}
    {row : AccountRow} {nb : ℚ}
    (hb : env.beginOk = true) (hr : env.readOk = true)
    (hl : lookupActive db d.accountNumber = some row)
    (hv : validate d.type d.amount row.available_balance = Except.ok nb)
    (hu : env.updateOk = false) :
    transact env db d =
      (Except.error "failed to update account balance", db,
       { d with branchCode := row.branch_code, availableBalance := nb }) := by
  unfold transact
  simp [hb, hr, hl, hv, hu]

/-- If everything up to `tx.Commit` works but the commit fails,
`transact` rolls back; `p.Data.AvailableBalance` already holds the
computed new balance. -/
theorem transact_commit_fail {env : Env} {db : DB} {d : TransactionData}
    {row : AccountRow} {nb : ℚ}
    (hb : env.beginOk = true) (hr : env.readOk = true)
    (hl : lookupActive db d.accountNumber = some row)
    (hv : validate d.type d.amount row.available_balance = Except.ok nb)
    (hu : env.updateOk = true) (hc : env.commitOk = false) :
    transact env db d =
      (Except.error "failed to commit transaction", db,
       { d with branchCode := row.branch_code, availableBalance := nb }) := by
  unfold transact
  simp [hb, hr, hl, hv, hu, hc]

/-- The full success path of `transact`: the matching row's balance is
updated and everything else is as the failure-free trace describes. -/
theorem transact_success {env : Env} {db : DB} {d : TransactionData}
    {row : AccountRow} {nb : ℚ}
    (hb : env.beginOk = true) (hr : env.readOk = true)
    (hl : lookupActive db d.accountNumber = some row)
    (hv : validate d.type d.amount row.available_balance = Except.ok nb)
    (hu : env.updateOk = true) (hc : env.commitOk = true) :
    transact env db d =
      (Except.ok (), updateBalance db d.accountNumber nb,
       { d with branchCode := row.branch_code, availableBalance := nb }) := by
  unfold transact
  simp [hb, hr, hl, hv, hu, hc]

/-- Exhaustive shape of one `transact` run: either it fails and the
table is untouched, or every external call succeeded, an ACTIVE row was
read, validation passed, and exactly that row's balance was updated. -/
theorem transact_shape (env : Env) (db : DB) (d : TransactionData) :
    ((∃ e, (transact env db d).1 = Except.error e) ∧ (transact env db d).2.1 = db)
    ∨ (env.beginOk = true ∧ env.readOk = true ∧ env.updateOk = true ∧ env.commitOk = true ∧
       ∃ row nb, lookupActive db d.accountNumber = some row ∧
         validate d.type d.amount row.available_balance = Except.ok nb ∧
         transact env db d =
           (Except.ok (), updateBalance db d.accountNumber nb,
            { d with branchCode := row.branch_code, availableBalance := nb })) := by
  cases hb : env.beginOk with
  | false => exact Or.inl (by rw [transact_begin_fail db d hb]; exact ⟨⟨_, rfl⟩, rfl⟩)
  | true =>
    cases hr : env.readOk with
    | false => exact Or.inl (by rw [transact_read_fail hb (by simp [hr])]; exact ⟨⟨_, rfl⟩, rfl⟩)
    | true =>
      cases hl : lookupActive db d.accountNumber with
      | none => exact Or.inl (by rw [transact_read_fail hb (by simp [hr, hl])]; exact ⟨⟨_, rfl⟩, rfl⟩)
      | some row =>
        cases hv : validate d.type d.amount row.available_balance with
        | error e =>
          exact Or.inl (by rw [transact_validate_fail hb hr hl hv]; exact ⟨⟨_, rfl⟩, rfl⟩)
        | ok nb =>
          cases hu : env.updateOk with
          | false => exact Or.inl (by rw [transact_update_fail hb hr hl hv hu]; exact ⟨⟨_, rfl⟩, rfl⟩)
          | true =>
            cases hc : env.commitOk with
            | false =>
              exact Or.inl (by rw [transact_commit_fail hb hr hl hv hu hc]; exact ⟨⟨_, rfl⟩, rfl⟩)
            | true =>
              exact Or.inr ⟨rfl, rfl, rfl, rfl, row, nb, rfl, hv,
                transact_success hb hr hl hv hu hc⟩

/-- The audit status is COMPLETED exactly when the ledger mutation
committed. -/
theorem doc_status_completed_iff (env : Env) (db : DB) (d : TransactionData) :
    (ProcessTransaction env db d).doc.status = "COMPLETED" ↔
      (transact env db d).1 = Except.ok () := by
  show (match (transact env db d).1 with
        | Except.ok _ => "COMPLETED"
        | Except.error _ => "FAILED") = "COMPLETED" ↔ _
  cases h : (transact env db d).1 with
  | ok u => cases u; simp
  | error e =>
    constructor
    · intro hx; simp at hx; exact absurd hx (by decide)
    · intro hx; exact Except.noConfusion hx

/-- A successful locked read means the row exists and is ACTIVE. -/
theorem lookupActive_some {db : DB} {a : String} {r : AccountRow}
    (h : lookupActive db a = some r) : db a = some r ∧ r.status = "ACTIVE" := by
  unfold lookupActive at h
  cases hd : db a with
  | none => rw [hd] at h; exact absurd h (by simp)
  | some r0 =>
    rw [hd] at h
    change (if r0.status = "ACTIVE" then some r0 else none) = some r at h
    by_cases hs : r0.status = "ACTIVE"
    · rw [if_pos hs] at h
      injection h with h
      subst h
      exact ⟨rfl, hs⟩
    · rw [if_neg hs] at h
      exact absurd h (by simp)

/-- The UPDATE sets the matched row's balance. -/
theorem balanceOf_updateBalance_self (db : DB) (acct : String) (nb : ℚ) (r : AccountRow)
    (h : db acct = some r) : balanceOf (updateBalance db acct nb) acct = some nb := by
  unfold balanceOf updateBalance
  simp [h]

/-- The UPDATE leaves every other account untouched. -/
theorem balanceOf_updateBalance_other (db : DB) {acct k : String} (nb : ℚ)
    (h : k ≠ acct) : balanceOf (updateBalance db acct nb) k = balanceOf db k := by
  unfold balanceOf updateBalance
  simp [h]

/-- One `ProcessTransaction` invocation, seen from one account: the
committed balance moves by exactly the committed amount (added for a
DEPOSIT, subtracted for a WITHDRAWAL, zero when the invocation failed
or targeted another account) and stays non-negative. -/
theorem step_balance (e : Env) (db : DB) (d : TransactionData) (acct : String) (b0 : ℚ)
    (hb : balanceOf db acct = some b0) (h0 : 0 ≤ b0) :
    ∃ b1 : ℚ, balanceOf (ProcessTransaction e db d).db acct = some b1 ∧
      b1 = b0
        + (if (ProcessTransaction e db d).doc.status = "COMPLETED"
              ∧ d.accountNumber = acct ∧ d.type = "DEPOSIT" then d.amount else 0)
        - (if (ProcessTransaction e db d).doc.status = "COMPLETED"
              ∧ d.accountNumber = acct ∧ d.type = "WITHDRAWAL" then d.amount else 0)
      ∧ 0 ≤ b1 := by
  have hdb : (ProcessTransaction e db d).db = (transact e db d).2.1 := rfl
  rcases transact_shape e db d with ⟨⟨e0, herr⟩, hsame⟩ |
    ⟨hbg, hrd, hup, hcm, row, nb, hl, hv, heq⟩
  · have hst : ¬ (ProcessTransaction e db d).doc.status = "COMPLETED" := by
      intro hc
      rw [doc_status_completed_iff] at hc
      rw [hc] at herr
      exact Except.noConfusion herr
    refine ⟨b0, ?_, ?_, h0⟩
    · rw [hdb, hsame]; exact hb
    · simp [hst]
  · have hok : (transact e db d).1 = Except.ok () := by rw [heq]
    have hst : (ProcessTransaction e db d).doc.status = "COMPLETED" :=
      (doc_status_completed_iff e db d).mpr hok
    have hdb2 : (ProcessTransaction e db d).db = updateBalance db d.accountNumber nb := by
      rw [hdb, heq]
    obtain ⟨hrow, hact⟩ := lookupActive_some hl
    by_cases hacct : d.accountNumber = acct
    · subst hacct
      have hb0 : b0 = row.available_balance := by
        unfold balanceOf at hb
        rw [hrow] at hb
        simpa using hb.symm
      have hbal : balanceOf (ProcessTransaction e db d).db d.accountNumber = some nb := by
        rw [hdb2]; exact balanceOf_updateBalance_self db _ nb row hrow
      rcases validate_ok_iff.mp hv with ⟨hty, hpos, hnb⟩ | ⟨hty, hpos, hle, hnb⟩
      · refine ⟨nb, hbal, ?_, by rw [hnb, ← hb0]; linarith⟩
        rw [if_pos ⟨hst, rfl, hty⟩, if_neg ?_]
        · rw [hnb, ← hb0]; ring
        · rintro ⟨-, -, hw⟩
          rw [hty] at hw
          exact absurd hw (by decide)
      · refine ⟨nb, hbal, ?_, by rw [hnb, ← hb0]; linarith [hb0 ▸ hle]⟩
        rw [if_neg ?_, if_pos ⟨hst, rfl, hty⟩]
        · rw [hnb, ← hb0]; ring
        · rintro ⟨-, -, hw⟩
          rw [hty] at hw
          exact absurd hw (by decide)
    · refine ⟨b0, ?_, ?_, h0⟩
      · rw [hdb2, balanceOf_updateBalance_other db nb (fun hk => hacct hk.symm)]
        exact hb
      · rw [if_neg (fun hcond => hacct hcond.2.1), if_neg (fun hcond => hacct hcond.2.1)]
        ring

theorem runTrace_nil (db : DB) : runTrace db [] = (db, []) := rfl

theorem runTrace_cons (db : DB) (e : Env) (d : TransactionData)
    (rest : List (Env × TransactionData)) :
    runTrace db ((e, d) :: rest) =
      ((runTrace (ProcessTransaction e db d).db rest).1,
       (d, decide ((ProcessTransaction e db d).doc.status = "COMPLETED"))
         :: (runTrace (ProcessTransaction e db d).db rest).2) := rfl

theorem sumAccepted_cons (acct ty : String) (d : TransactionData) (ok : Bool)
    (tr : List (TransactionData × Bool)) :
    sumAccepted acct ty ((d, ok) :: tr) =
      (if ok = true ∧ d.accountNumber = acct ∧ d.type = ty then d.amount else 0)
        + sumAccepted acct ty tr := rfl

/-- C1, claim statement: over any sequence of Transaction Processor
invocations, an account that starts with a non-negative committed
balance ends with committed balance = initial balance + accepted
deposits − accepted withdrawals, and that balance is non-negative. -/
theorem c1_balance_invariant (db : DB) (acct : String) (b0 : ℚ)
    (inputs : List (Env × TransactionData))
    (hb : balanceOf db acct = some b0) (h0 : 0 ≤ b0) :
    ∃ b : ℚ,
      balanceOf (runTrace db inputs).1 acct = some b ∧
      b = b0 + sumAccepted acct "DEPOSIT" (runTrace db inputs).2
            - sumAccepted acct "WITHDRAWAL" (runTrace db inputs).2 ∧
      0 ≤ b := by
  induction inputs generalizing db b0 with
  | nil =>
    refine ⟨b0, ?_, ?_, h0⟩
    · rw [runTrace_nil]; exact hb
    · rw [runTrace_nil]
      show b0 = b0 + sumAccepted acct "DEPOSIT" [] - sumAccepted acct "WITHDRAWAL" []
      unfold sumAccepted
      ring
  | cons hd rest ih =>
    obtain ⟨e, d⟩ := hd
    obtain ⟨b1, hb1, hb1eq, hb1nn⟩ := step_balance e db d acct b0 hb h0
    obtain ⟨b, hbfin, hbeq, hbnn⟩ := ih (ProcessTransaction e db d).db b1 hb1 hb1nn
    refine ⟨b, ?_, ?_, hbnn⟩
    · rw [runTrace_cons]; exact hbfin
    · rw [runTrace_cons]
      rw [sumAccepted_cons, sumAccepted_cons]
      simp only [decide_eq_true_eq]
      rw [hbeq, hb1eq]
      ring


theorem ProcessTransaction_ret (env : Env) (db : DB) (d : TransactionData) :
    (ProcessTransaction env db d).ret = Except.ok () := rfl

theorem ProcessTransaction_db_eq (env : Env) (db : DB) (d : TransactionData) :
    (ProcessTransaction env db d).db = (transact env db d).2.1 := rfl

theorem ProcessTransaction_writes (env : Env) (db : DB) (d : TransactionData) :
    (ProcessTransaction env db d).writes = [(ProcessTransaction env db d).doc] := rfl

theorem doc_balance_after (env : Env) (db : DB) (d : TransactionData) :
    (ProcessTransaction env db d).doc.balance_after_transaction
      = (transact env db d).2.2.availableBalance := rfl

theorem doc_status_failed {env : Env} {db : DB} {d : TransactionData} {e : String}
    (h : (transact env db d).1 = Except.error e) :
    (ProcessTransaction env db d).doc.status = "FAILED" := by
  show (match (transact env db d).1 with
        | Except.ok _ => "COMPLETED"
        | Except.error _ => "FAILED") = "FAILED"
  rw [h]

/-! ## Concrete fixtures used by the witnesses -/

/-- An ACTIVE account row with a given balance. -/
def exRowWith (b : ℚ) : AccountRow :=
  { account_holder_name := "Alice"
    available_balance := b
    branch_code := "BR1"
    status := "ACTIVE" }

/-- A one-account table holding `exRowWith b` under account number
`BR10000001`. -/
def exDBWith (b : ℚ) : DB :=
  fun k => if k = "BR10000001" then some (exRowWith b) else none

/-- All external calls succeed. -/
def exEnvOk : Env :=
  { beginOk := true, readOk := true, updateOk := true, commitOk := true, auditOk := true }

/-- Everything succeeds up to `tx.Commit`, which fails. -/
def exEnvCommitFail : Env :=
  { beginOk := true, readOk := true, updateOk := true, commitOk := false, auditOk := true }

/-- The `tx.Begin` call itself fails. -/
def exEnvBeginFail : Env :=
  { beginOk := false, readOk := true, updateOk := true, commitOk := true, auditOk := true }

/-- A decoded WITHDRAWAL message for the fixture account. -/
def exWithdrawal (amt : ℚ) : TransactionData :=
  { accountNumber := "BR10000001", amount := amt, availableBalance := 0
    type := "WITHDRAWAL", transactionId := "TX1", branchCode := "" }

/-- A decoded DEPOSIT message for the fixture account. -/
def exDeposit (amt : ℚ) : TransactionData :=
  { accountNumber := "BR10000001", amount := amt, availableBalance := 0
    type := "DEPOSIT", transactionId := "TX2", branchCode := "" }

theorem exDBWith_lookup (b : ℚ) :
    lookupActive (exDBWith b) "BR10000001" = some (exRowWith b) := by
  simp [lookupActive, exDBWith, exRowWith]

theorem exDBWith_balance (b : ℚ) :
    balanceOf (exDBWith b) "BR10000001" = some b := by
  simp [balanceOf, exDBWith, exRowWith]

/-! ## The claims -/

/-- C2: an invocation that passes validation and commits persists
`current + amount` (DEPOSIT) or `current − amount` (WITHDRAWAL) as the
account's new balance, and writes a COMPLETED audit record whose
`balance_after_transaction` is that new balance. -/
theorem c2_commit_updates_balance (env : Env) (db : DB) (d : TransactionData)
    (row : AccountRow) (nb : ℚ)
    (hbg : env.beginOk = true) (hrd : env.readOk = true)
    (hup : env.updateOk = true) (hcm : env.commitOk = true)
    (hl : lookupActive db d.accountNumber = some row)
    (hv : validate d.type d.amount row.available_balance = Except.ok nb) :
    balanceOf (ProcessTransaction env db d).db d.accountNumber = some nb
    ∧ (d.type = "DEPOSIT" → nb = row.available_balance + d.amount)
    ∧ (d.type = "WITHDRAWAL" → nb = row.available_balance - d.amount)
    ∧ (ProcessTransaction env db d).doc.status = "COMPLETED"
    ∧ (ProcessTransaction env db d).doc.balance_after_transaction = nb := by
  have heq := transact_success hbg hrd hl hv hup hcm
  have hok : (transact env db d).1 = Except.ok () := by rw [heq]
  refine ⟨?_, ?_, ?_, (doc_status_completed_iff env db d).mpr hok, ?_⟩
  · rw [ProcessTransaction_db_eq, heq]
    exact balanceOf_updateBalance_self db _ nb row (lookupActive_some hl).1
  · intro hty
    rcases validate_ok_iff.mp hv with ⟨-, -, hnb⟩ | ⟨hw, -, -, -⟩
    · exact hnb
    · rw [hty] at hw; exact absurd hw (by decide)
  · intro hty
    rcases validate_ok_iff.mp hv with ⟨hdep, -, -⟩ | ⟨-, -, -, hnb⟩
    · rw [hty] at hdep; exact absurd hdep (by decide)
    · exact hnb
  · rw [doc_balance_after, heq]

/-- C2 witness: balance 1000.00, WITHDRAWAL 300.00 → balance 700.00,
COMPLETED audit record with balance_after_transaction 700.00. -/
theorem c2_commit_updates_balance_witness :
    balanceOf (ProcessTransaction exEnvOk (exDBWith 1000) (exWithdrawal 300)).db
        (exWithdrawal 300).accountNumber = some 700
    ∧ ((exWithdrawal 300).type = "DEPOSIT" →
        (700 : ℚ) = (exRowWith 1000).available_balance + (exWithdrawal 300).amount)
    ∧ ((exWithdrawal 300).type = "WITHDRAWAL" →
        (700 : ℚ) = (exRowWith 1000).available_balance - (exWithdrawal 300).amount)
    ∧ (ProcessTransaction exEnvOk (exDBWith 1000) (exWithdrawal 300)).doc.status = "COMPLETED"
    ∧ (ProcessTransaction exEnvOk (exDBWith 1000)
        (exWithdrawal 300)).doc.balance_after_transaction = 700 :=
  c2_commit_updates_balance exEnvOk (exDBWith 1000) (exWithdrawal 300) (exRowWith 1000) 700
    rfl rfl rfl rfl (exDBWith_lookup 1000)
    (by simp [validate, exWithdrawal, exRowWith]; norm_num)

/-- C3: a WITHDRAWAL whose amount exceeds the (non-negative) current
balance is rejected as `insufficient funds`: the table is untouched and
the audit record is FAILED, carrying the unchanged balance. -/
theorem c3_insufficient_funds (env : Env) (db : DB) (d : TransactionData) (row : AccountRow)
    (hbg : env.beginOk = true) (hrd : env.readOk = true)
    (hl : lookupActive db d.accountNumber = some row)
    (hw : d.type = "WITHDRAWAL")
    (hnn : 0 ≤ row.available_balance)
    (hover : row.available_balance < d.amount) :
    (transact env db d).1 = Except.error "insufficient funds"
    ∧ (ProcessTransaction env db d).db = db
    ∧ (ProcessTransaction env db d).doc.status = "FAILED"
    ∧ (ProcessTransaction env db d).doc.balance_after_transaction = row.available_balance := by
  have hpos : 0 < d.amount := lt_of_le_of_lt hnn hover
  have hv : validate d.type d.amount row.available_balance
      = Except.error "insufficient funds" := by
    rw [hw]
    unfold validate
    rw [if_neg (by decide), if_pos rfl, if_neg (not_le.mpr hpos), if_pos hover]
  have heq := transact_validate_fail hbg hrd hl hv
  refine ⟨by rw [heq], ?_, doc_status_failed (by rw [heq]), ?_⟩
  · rw [ProcessTransaction_db_eq, heq]
  · rw [doc_balance_after, heq]

/-- C3 witness: balance 100.00, WITHDRAWAL 500.00 → balance stays
100.00, FAILED audit record. -/
theorem c3_insufficient_funds_witness :
    (transact exEnvOk (exDBWith 100) (exWithdrawal 500)).1
        = Except.error "insufficient funds"
    ∧ (ProcessTransaction exEnvOk (exDBWith 100) (exWithdrawal 500)).db = exDBWith 100
    ∧ (ProcessTransaction exEnvOk (exDBWith 100) (exWithdrawal 500)).doc.status = "FAILED"
    ∧ (ProcessTransaction exEnvOk (exDBWith 100)
        (exWithdrawal 500)).doc.balance_after_transaction
        = (exRowWith 100).available_balance :=
  c3_insufficient_funds exEnvOk (exDBWith 100) (exWithdrawal 500) (exRowWith 100)
    rfl rfl (exDBWith_lookup 100) rfl (by norm_num [exRowWith])
    (by norm_num [exRowWith, exWithdrawal])

/-- C4: a DEPOSIT or WITHDRAWAL with non-positive amount, or any other
transaction type, is rejected by the validation switch; the ledger
transaction rolls back and the table is untouched. -/
theorem c4_validation_reject (env : Env) (db : DB) (d : TransactionData) (row : AccountRow)
    (hbg : env.beginOk = true) (hrd : env.readOk = true)
    (hl : lookupActive db d.accountNumber = some row)
    (hbad : ((d.type = "DEPOSIT" ∨ d.type = "WITHDRAWAL") ∧ d.amount ≤ 0)
          ∨ (d.type ≠ "DEPOSIT" ∧ d.type ≠ "WITHDRAWAL")) :
    (∃ e, validate d.type d.amount row.available_balance = Except.error e
        ∧ (transact env db d).1 = Except.error e)
    ∧ (ProcessTransaction env db d).db = db := by
  have hv : ∃ e, validate d.type d.amount row.available_balance = Except.error e := by
    rcases hbad with ⟨hty | hty, hle⟩ | ⟨hd, hw⟩
    · refine ⟨"deposit amount must be positive", ?_⟩
      rw [hty]
      unfold validate
      rw [if_pos rfl, if_pos hle]
    · refine ⟨"withdrawal amount must be positive", ?_⟩
      rw [hty]
      unfold validate
      rw [if_neg (by decide), if_pos rfl, if_pos hle]
    · refine ⟨"invalid transaction type: " ++ d.type, ?_⟩
      unfold validate
      rw [if_neg hd, if_neg hw]
  obtain ⟨e, hv⟩ := hv
  have heq := transact_validate_fail hbg hrd hl hv
  exact ⟨⟨e, hv, by rw [heq]⟩, by rw [ProcessTransaction_db_eq, heq]⟩

/-- C4 witness: a "TRANSFER" message against an existing ACTIVE account
is rejected with the table unchanged. -/
theorem c4_validation_reject_witness :
    (∃ e, validate "TRANSFER" 50 (exRowWith 1000).available_balance = Except.error e
        ∧ (transact exEnvOk (exDBWith 1000)
            { exDeposit 50 with type := "TRANSFER" }).1 = Except.error e)
    ∧ (ProcessTransaction exEnvOk (exDBWith 1000)
        { exDeposit 50 with type := "TRANSFER" }).db = exDBWith 1000 :=
  c4_validation_reject exEnvOk (exDBWith 1000) { exDeposit 50 with type := "TRANSFER" }
    (exRowWith 1000) rfl rfl (exDBWith_lookup 1000)
    (Or.inr ⟨by decide, by decide⟩)

/-- C5: a FAILED audit record carries the balance the processor last
held: zero when the invocation failed before the locked read completed
(begin failure, read failure, or no ACTIVE row), the balance just read
when validation rejected the request, and the computed new balance when
the UPDATE or the commit failed. -/
theorem c5_failed_audit_balance (env : Env) (db : DB) (d : TransactionData)
    (h0 : d.availableBalance = 0) :
    ((env.beginOk = false ∨ env.readOk = false ∨ lookupActive db d.accountNumber = none) →
       (ProcessTransaction env db d).doc.status = "FAILED"
       ∧ (ProcessTransaction env db d).doc.balance_after_transaction = 0)
    ∧ (∀ row e, env.beginOk = true → env.readOk = true →
         lookupActive db d.accountNumber = some row →
         validate d.type d.amount row.available_balance = Except.error e →
         (ProcessTransaction env db d).doc.status = "FAILED"
         ∧ (ProcessTransaction env db d).doc.balance_after_transaction
             = row.available_balance)
    ∧ (∀ row nb, env.beginOk = true → env.readOk = true →
         lookupActive db d.accountNumber = some row →
         validate d.type d.amount row.available_balance = Except.ok nb →
         (env.updateOk = false ∨ env.commitOk = false) →
         (ProcessTransaction env db d).doc.status = "FAILED"
         ∧ (ProcessTransaction env db d).doc.balance_after_transaction = nb) := by
  refine ⟨?_, ?_, ?_⟩
  · intro hpre
    cases hbg : env.beginOk with
    | false =>
      have heq := transact_begin_fail db d hbg
      exact ⟨doc_status_failed (by rw [heq]), by rw [doc_balance_after, heq]; exact h0⟩
    | true =>
      have hnone : (if env.readOk then lookupActive db d.accountNumber else none) = none := by
        rcases hpre with h | h | h
        · rw [hbg] at h; exact absurd h (by decide)
        · rw [h]; rfl
        · cases hro : env.readOk with
          | false => rfl
          | true => rw [if_pos rfl]; exact h
      have heq := transact_read_fail hbg hnone
      exact ⟨doc_status_failed (by rw [heq]), by rw [doc_balance_after, heq]; exact h0⟩
  · intro row e hbg hrd hl hv
    have heq := transact_validate_fail hbg hrd hl hv
    exact ⟨doc_status_failed (by rw [heq]), by rw [doc_balance_after, heq]⟩
  · intro row nb hbg hrd hl hv hio
    cases hup : env.updateOk with
    | false =>
      have heq := transact_update_fail hbg hrd hl hv hup
      exact ⟨doc_status_failed (by rw [heq]), by rw [doc_balance_after, heq]⟩
    | true =>
      have hcm : env.commitOk = false := by
        rcases hio with h | h
        · rw [hup] at h; exact absurd h (by decide)
        · exact h
      have heq := transact_commit_fail hbg hrd hl hv hup hcm
      exact ⟨doc_status_failed (by rw [heq]), by rw [doc_balance_after, heq]⟩

/-- C5 witness: with `tx.Begin` failing, the audit record is FAILED
with balance_after_transaction 0. -/
theorem c5_failed_audit_balance_witness :
    (ProcessTransaction exEnvBeginFail (exDBWith 1000) (exDeposit 50)).doc.status = "FAILED"
    ∧ (ProcessTransaction exEnvBeginFail (exDBWith 1000)
        (exDeposit 50)).doc.balance_after_transaction = 0 :=
  (c5_failed_audit_balance exEnvBeginFail (exDBWith 1000) (exDeposit 50) rfl).1
    (Or.inl rfl)

/-- The ledger mutation never looks at whether the audit-index call succeeds. -/
theorem transact_auditOk_irrel (env : Env) (db : DB) (d : TransactionData) (b : Bool) :
    transact { env with auditOk := b } db d = transact env db d := by
  cases env
  rfl

/-- C6: every `ProcessTransaction` invocation attempts exactly one
audit-index write, returns nil to its caller, and the outcome of the
audit-index call changes neither the returned value, nor the table, nor
the audit document — an index failure is logged only and never undoes
the ledger outcome. -/
theorem c6_audit_once_never_propagated (env : Env) (db : DB) (d : TransactionData) (b : Bool) :
    (ProcessTransaction env db d).writes = [(ProcessTransaction env db d).doc]
    ∧ (ProcessTransaction env db d).writes.length = 1
    ∧ (ProcessTransaction env db d).ret = Except.ok ()
    ∧ (ProcessTransaction { env with auditOk := b } db d).ret
        = (ProcessTransaction env db d).ret
    ∧ (ProcessTransaction { env with auditOk := b } db d).db
        = (ProcessTransaction env db d).db
    ∧ (ProcessTransaction { env with auditOk := b } db d).doc
        = (ProcessTransaction env db d).doc := by
  refine ⟨rfl, rfl, rfl, rfl, ?_, ?_⟩
  · show (transact { env with auditOk := b } db d).2.1 = (transact env db d).2.1
    rw [transact_auditOk_irrel]
  · show auditDocOf (transact { env with auditOk := b } db d)
        = auditDocOf (transact env db d)
    rw [transact_auditOk_irrel]

/-- C7, counterexample to the claim as stated: with every step up to
`tx.Commit` succeeding and the commit failing, the internal ledger
mutation errors out, yet `ProcessTransaction` returns nil to its caller
— the infrastructure failure is not surfaced as an error from the
processor. -/
theorem c7_counterexample :
    (transact exEnvCommitFail (exDBWith 1000) (exDeposit 50)).1
        = Except.error "failed to commit transaction"
    ∧ (ProcessTransaction exEnvCommitFail (exDBWith 1000) (exDeposit 50)).ret
        = Except.ok () := by
  have hv : validate (exDeposit 50).type (exDeposit 50).amount
      (exRowWith 1000).available_balance = Except.ok 1050 := by
    simp [validate, exDeposit, exRowWith]
    norm_num
  have heq := transact_commit_fail
    (show exEnvCommitFail.beginOk = true from rfl) rfl (exDBWith_lookup 1000) hv rfl rfl
  exact ⟨by rw [heq], rfl⟩

/-- C7, amended: when a ledger infrastructure step fails (begin
failure, or commit failure after a validated mutation), the ledger
transaction is rolled back and a FAILED audit record is still written;
the error is only logged inside the processor, whose entry point
returns nil to its caller rather than surfacing the error. -/
theorem c7_infrastructure_failure (env : Env) (db : DB) (d : TransactionData)
    (hfail : env.beginOk = false
           ∨ (env.beginOk = true ∧ env.readOk = true ∧ env.updateOk = true
              ∧ env.commitOk = false
              ∧ ∃ row nb, lookupActive db d.accountNumber = some row
                  ∧ validate d.type d.amount row.available_balance = Except.ok nb)) :
    (∃ e, (transact env db d).1 = Except.error e)
    ∧ (ProcessTransaction env db d).db = db
    ∧ (ProcessTransaction env db d).doc.status = "FAILED"
    ∧ (ProcessTransaction env db d).writes = [(ProcessTransaction env db d).doc]
    ∧ (ProcessTransaction env db d).ret = Except.ok () := by
  rcases hfail with hbg | ⟨hbg, hrd, hup, hcm, row, nb, hl, hv⟩
  · have heq := transact_begin_fail db d hbg
    exact ⟨⟨_, by rw [heq]⟩, by rw [ProcessTransaction_db_eq, heq],
      doc_status_failed (by rw [heq]), rfl, rfl⟩
  · have heq := transact_commit_fail hbg hrd hl hv hup hcm
    exact ⟨⟨_, by rw [heq]⟩, by rw [ProcessTransaction_db_eq, heq],
      doc_status_failed (by rw [heq]), rfl, rfl⟩

/-- C7 witness: begin failure rolls back, still audits FAILED, and the
processor returns nil. -/
theorem c7_infrastructure_failure_witness :
    (∃ e, (transact exEnvBeginFail (exDBWith 1000) (exDeposit 50)).1 = Except.error e)
    ∧ (ProcessTransaction exEnvBeginFail (exDBWith 1000) (exDeposit 50)).db = exDBWith 1000
    ∧ (ProcessTransaction exEnvBeginFail (exDBWith 1000) (exDeposit 50)).doc.status = "FAILED"
    ∧ (ProcessTransaction exEnvBeginFail (exDBWith 1000) (exDeposit 50)).writes
        = [(ProcessTransaction exEnvBeginFail (exDBWith 1000) (exDeposit 50)).doc]
    ∧ (ProcessTransaction exEnvBeginFail (exDBWith 1000) (exDeposit 50)).ret
        = Except.ok () :=
  c7_infrastructure_failure exEnvBeginFail (exDBWith 1000) (exDeposit 50) (Or.inl rfl)

/-- A decimal digit character comes out of `Nat.digitChar` on any
residue modulo ten. -/
theorem digitChar_mod10_isDigit (x : Nat) : (Nat.digitChar (x % 10)).isDigit = true := by
  have h : x % 10 < 10 := Nat.mod_lt x (by norm_num)
  interval_cases h : x % 10 <;> decide

/-- C8: for every branch code and clock reading, the generated account
number is the branch code followed by exactly 7 decimal digits (the
time-derived value reduced modulo 10,000,000), so its length is the
branch code's length plus 7. -/
theorem c8_account_number_format (branchCode : String) (nowUnixNano : Nat) :
    ∃ suffix : String,
      generateAccountNumber branchCode nowUnixNano = branchCode ++ suffix
      ∧ suffix = format07d ((1000000 + nowUnixNano % 9000000) % 10000000)
      ∧ suffix.length = 7
      ∧ suffix.toList.all Char.isDigit = true
      ∧ (generateAccountNumber branchCode nowUnixNano).length = branchCode.length + 7 := by
  refine ⟨format07d ((1000000 + nowUnixNano % 9000000) % 10000000), rfl, rfl, rfl, ?_, ?_⟩
  · show (List.all [Nat.digitChar ((1000000 + nowUnixNano % 9000000) % 10000000 / 1000000 % 10),
      Nat.digitChar ((1000000 + nowUnixNano % 9000000) % 10000000 / 100000 % 10),
      Nat.digitChar ((1000000 + nowUnixNano % 9000000) % 10000000 / 10000 % 10),
      Nat.digitChar ((1000000 + nowUnixNano % 9000000) % 10000000 / 1000 % 10),
      Nat.digitChar ((1000000 + nowUnixNano % 9000000) % 10000000 / 100 % 10),
      Nat.digitChar ((1000000 + nowUnixNano % 9000000) % 10000000 / 10 % 10),
      Nat.digitChar ((1000000 + nowUnixNano % 9000000) % 10000000 % 10)] Char.isDigit) = true
    simp [digitChar_mod10_isDigit]
  · rw [generateAccountNumber]
    rw [String.length_append]
    rw [show (format07d ((1000000 + nowUnixNano % 9000000) % 10000000)).length = 7 from rfl]

/-- C9: each worker acknowledges every consumed message: a message
that fails to decode is acknowledged and dropped without invoking a
processor or writing an audit record, and a decoded message has its
processor invoked synchronously, with acknowledgment unconditional on
the processor's (merely logged) error. -/
theorem c9_worker_ack_policy (env : Env) (cenv : CreateEnv) (db : DB)
    (ad : AccountData) (td : TransactionData) :
    (∀ m, (workerStep env cenv db m).acked = true)
    ∧ (workerStep env cenv db (QueueMsg.transaction none)).invoked = false
    ∧ (workerStep env cenv db (QueueMsg.transaction none)).writes = []
    ∧ (workerStep env cenv db (QueueMsg.transaction none)).db = db
    ∧ (workerStep env cenv db (QueueMsg.account none)).invoked = false
    ∧ (workerStep env cenv db (QueueMsg.account none)).writes = []
    ∧ (workerStep env cenv db (QueueMsg.account none)).db = db
    ∧ (workerStep env cenv db (QueueMsg.transaction (some td))).invoked = true
    ∧ (workerStep env cenv db (QueueMsg.account (some ad))).invoked = true := by
  refine ⟨?_, rfl, rfl, rfl, rfl, rfl, rfl, rfl, rfl⟩
  intro m
  cases m with
  | account dec => cases dec <;> rfl
  | transaction dec => cases dec <;> rfl

/-- C10: a committed ledger mutation rewrites only the
`available_balance` of the one row whose key is the requested account
number — its other columns keep their values and every other key maps
to exactly what it did before. -/
theorem c10_update_frame (env : Env) (db : DB) (d : TransactionData) (row : AccountRow)
    (hok : (transact env db d).1 = Except.ok ())
    (hrow : db d.accountNumber = some row) :
    ∃ nb : ℚ,
      (transact env db d).2.1 d.accountNumber
          = some { row with available_balance := nb }
      ∧ ∀ k, k ≠ d.accountNumber → (transact env db d).2.1 k = db k := by
  rcases transact_shape env db d with ⟨⟨e, herr⟩, -⟩ | ⟨-, -, -, -, row0, nb, hl, -, heq⟩
  · rw [herr] at hok
    exact Except.noConfusion hok
  · have hrow0 := (lookupActive_some hl).1
    rw [hrow] at hrow0
    injection hrow0 with hr0
    subst hr0
    refine ⟨nb, ?_, ?_⟩
    · rw [heq]
      show updateBalance db d.accountNumber nb d.accountNumber = _
      unfold updateBalance
      simp [hrow]
    · intro k hk
      rw [heq]
      show updateBalance db d.accountNumber nb k = db k
      unfold updateBalance
      simp [hk]

/-- C10 witness: a committed deposit of 50 on the fixture account
rewrites only that row's balance. -/
theorem c10_update_frame_witness :
    ∃ nb : ℚ,
      (transact exEnvOk (exDBWith 1000) (exDeposit 50)).2.1 (exDeposit 50).accountNumber
          = some { exRowWith 1000 with available_balance := nb }
      ∧ ∀ k, k ≠ (exDeposit 50).accountNumber →
          (transact exEnvOk (exDBWith 1000) (exDeposit 50)).2.1 k = exDBWith 1000 k :=
  c10_update_frame exEnvOk (exDBWith 1000) (exDeposit 50) (exRowWith 1000)
    (by
      have hv : validate (exDeposit 50).type (exDeposit 50).amount
          (exRowWith 1000).available_balance = Except.ok 1050 := by
        simp [validate, exDeposit, exRowWith]
        norm_num
      rw [transact_success (show exEnvOk.beginOk = true from rfl) rfl (exDBWith_lookup 1000) hv rfl rfl])
    (by simp [exDBWith, exDeposit])

/-- C1 witness: starting from balance 1000, one committed deposit of 50
and one committed withdrawal of 300 leave the fixture account with the
balance the accepted-sum formula gives, still non-negative. -/
theorem c1_balance_invariant_witness :
    ∃ b : ℚ,
      balanceOf (runTrace (exDBWith 1000)
          [(exEnvOk, exDeposit 50), (exEnvOk, exWithdrawal 300)]).1 "BR10000001" = some b ∧
      b = 1000
          + sumAccepted "BR10000001" "DEPOSIT"
              (runTrace (exDBWith 1000)
                [(exEnvOk, exDeposit 50), (exEnvOk, exWithdrawal 300)]).2
          - sumAccepted "BR10000001" "WITHDRAWAL"
              (runTrace (exDBWith 1000)
                [(exEnvOk, exDeposit 50), (exEnvOk, exWithdrawal 300)]).2 ∧
      0 ≤ b :=
  c1_balance_invariant (exDBWith 1000) "BR10000001" 1000
    [(exEnvOk, exDeposit 50), (exEnvOk, exWithdrawal 300)]
    (exDBWith_balance 1000) (by norm_num)

end BankingLedger
